import Mathlib

/-!
Shallow embedding of the folder-scanner repository (three Python source
files: folder_report.py, filter_by_extension.py, folder_scanner.py).

Modelling conventions:
* Python `str` values that the scanners inspect character by character
  (paths, names, extensions) are embedded as `List Char` (`PyStr`);
  rendered report text is embedded as Lean `String`.
* `str.lower()` is embedded by `pyLower`, ASCII lower-casing (the only
  characters the programs compare are ASCII extensions).
* The filesystem walker (`Path.rglob` / `os.listdir`) is embedded as an
  input `List Entry` in traversal order, together with a Boolean `isDir`
  recording whether the root path resolved to an existing directory.
  Each `Entry` carries the walker-provided metadata: whether it is a
  regular file, its name, its absolute path, its suffix
  (`Path.suffix` / `os.path.splitext`: dot-prefixed, or empty), and
  `sizeRes`, the outcome of `stat`/`getsize` (`none` models `OSError`).
* Python exceptions and `sys.exit` are embedded with `Except ScanErr`;
  the exception messages are not modelled.
* Float division in byte formatting is embedded exactly over rationals
  represented as numerator/denominator pairs of naturals (denominator a
  power of 1024); the `:.2f` rendering is round-half-even to hundredths,
  which agrees with CPython whenever the scaled value is exactly
  representable in binary64.
-/

deriving instance DecidableEq for Except

/-- Python strings inspected by the scanners, as lists of characters. -/
abbrev PyStr := List Char

/-- ASCII lower-casing of one character, as CPython `str.lower` acts on
the ASCII range: `A`..`Z` map 32 code points up, everything else is fixed. -/
def pyLowerChar (c : Char) : Char :=
  if 65 ≤ c.toNat ∧ c.toNat ≤ 90 then Char.ofNat (c.toNat + 32) else c

/-- Embedding of `str.lower()`. -/
def pyLower (s : PyStr) : PyStr := s.map pyLowerChar

/-- Embedding of `str.startswith(".")`. -/
def pyStartsWithDot (s : PyStr) : Bool :=
  match s with
  | [] => false
  | c :: _ => c = '.'

/-- The sentinel used for files without an extension segment. -/
def noExtSentinel : PyStr := "(no extension)".data

/-- Embedding of `entry.suffix.lower() or "(no extension)"` (and of the
equivalent `ext.lower() if ext else "(no extension)"` in folder_scanner.py,
equivalent because lower-casing preserves emptiness). -/
def pyExt (suffix : PyStr) : PyStr :=
  let l := pyLower suffix
  if l = [] then noExtSentinel else l

/-- One filesystem entry as supplied by the directory walker, in traversal
order. `sizeRes = none` models an `OSError` raised by `stat`/`getsize`. -/
structure Entry where
  name : PyStr
  path : PyStr
  isFile : Bool
  suffix : PyStr
  sizeRes : Option Nat
deriving DecidableEq

/-- Failure modes of the scan functions: `NotADirectoryError`,
a propagated `OSError`, and `sys.exit(code)`. -/
inductive ScanErr where
  | notADirectory
  | osError
  | sysExit (code : Nat)
deriving DecidableEq

/-- Embedding of the `defaultdict` / `Counter` update
`by_extension[ext]["count"] += 1; by_extension[ext]["size"] += size`
on a key-unique association list kept in insertion order. -/
def bump (b : List (PyStr × Nat × Nat)) (ext : PyStr) (size : Nat) :
    List (PyStr × Nat × Nat) :=
  match b with
  | [] => [(ext, 1, size)]
  | (e, c, s) :: rest =>
    if e = ext then (e, c + 1, s + size) :: rest
    else (e, c, s) :: bump rest ext size

/-- Sum of the per-bucket counts of an extension table. -/
def sumCount (b : List (PyStr × Nat × Nat)) : Nat :=
  (b.map (fun x => x.2.1)).sum

/-- Sum of the per-bucket sizes of an extension table. -/
def sumSize (b : List (PyStr × Nat × Nat)) : Nat :=
  (b.map (fun x => x.2.2)).sum

/-- Nearest integer to `num / den`, ties to even (the rounding CPython
applies when formatting an exactly-representable value with `:.2f`,
after the numerator has been scaled by 100). -/
def roundHalfEven (num den : Nat) : Nat :=
  let q := num / den
  let r := num % den
  if 2 * r < den then q
  else if den < 2 * r then q + 1
  else if q % 2 = 0 then q else q + 1

/-- Two-digit rendering of a value below 100. -/
def pad2 (n : Nat) : String :=
  if n < 10 then "0" ++ toString n else toString n

/-- Embedding of the f-string `{x:.2f} {u}` where `x` is the exact
rational `num / den`. -/
def fmt2 (num den : Nat) (u : String) : String :=
  let h := roundHalfEven (num * 100) den
  toString (h / 100) ++ "." ++ pad2 (h % 100) ++ " " ++ u

/-- String consisting of `n` copies of `c` (Python `c * n`). -/
def strRepeat (c : Char) (n : Nat) : String :=
  String.mk (List.replicate n c)

/-- Embedding of the f-string left-aligned minimum-width pad `{s:w}`. -/
def padRight (s : String) (w : Nat) : String :=
  s ++ strRepeat ' ' (w - s.length)

/-- Embedding of the f-string right-aligned minimum-width pad `{n:w}`. -/
def padLeft (s : String) (w : Nat) : String :=
  strRepeat ' ' (w - s.length) ++ s

/-- Strict lexicographic code-point order on Python strings, as used by
`sorted` on the extension keys. -/
def pyStrLt : PyStr → PyStr → Bool
  | [], [] => false
  | [], _ :: _ => true
  | _ :: _, [] => false
  | a :: as, b :: bs =>
    if a.toNat < b.toNat then true
    else if b.toNat < a.toNat then false
    else pyStrLt as bs

/-- Ordered insertion used to embed `sorted` over key-unique pair lists. -/
def insertByKey {α : Type} (x : PyStr × α) :
    List (PyStr × α) → List (PyStr × α)
  | [] => [x]
  | y :: ys =>
    if pyStrLt y.1 x.1 then y :: insertByKey x ys else x :: y :: ys

/-- Embedding of Python `sorted` by key over a key-unique pair list. -/
def sortByKey {α : Type} (l : List (PyStr × α)) : List (PyStr × α) :=
  l.foldr insertByKey []

namespace FolderReport

/-- Loop body sequence of `format_size` (folder_report.py lines 17-23):
the running float value is carried exactly as `num / den`; the loop test
`size_bytes < 1024` on the current value is `num < 1024 * den`, and
`size_bytes /= 1024` multiplies the denominator by 1024. -/
def formatLoop (num den : Nat) : List String → String
  | [] => fmt2 num den "PB"
  | u :: us =>
    if num < 1024 * den then fmt2 num den u else formatLoop num (1024 * den) us

/-- Embedding of `format_size` from folder_report.py (also imported and
used by filter_by_extension.py). -/
def format_size (size_bytes : Nat) : String :=
  formatLoop size_bytes 1 ["B", "KB", "MB", "GB", "TB"]

/-- The five mutable locals of `scan_folder` (folder_report.py lines
32-36). `largest_file` stores the entry itself, as the Python code stores
the `Path` object. -/
structure ScanState where
  total_files : Nat
  total_size : Nat
  largest_file : Option Entry
  largest_size : Nat
  by_extension : List (PyStr × Nat × Nat)
deriving DecidableEq

/-- Initial values of the scan locals. -/
def initState : ScanState := ⟨0, 0, none, 0, []⟩

/-- Body of the `for entry in root.rglob("*")` loop of `scan_folder`
(folder_report.py lines 38-51): non-files are ignored; a stat failure is
recovered as size 0; the largest-file comparison is `size >= largest_size`. -/
def scanStep (st : ScanState) (entry : Entry) : ScanState :=
  if entry.isFile then
    let size := match entry.sizeRes with | some s => s | none => 0
    let ext := pyExt entry.suffix
    { total_files := st.total_files + 1
      total_size := st.total_size + size
      largest_file := if st.largest_size ≤ size then some entry else st.largest_file
      largest_size := if st.largest_size ≤ size then size else st.largest_size
      by_extension := bump st.by_extension ext size }
  else st

/-- The dict returned by `scan_folder` (folder_report.py lines 53-60). -/
structure ReportData where
  folder : PyStr
  total_files : Nat
  total_size : Nat
  largest_file : Option Entry
  largest_size : Nat
  by_extension : List (PyStr × Nat × Nat)
deriving DecidableEq

/-- Embedding of `scan_folder` from folder_report.py: `root` is the
resolved root path, `isDir` the outcome of `root.is_dir()`, `entries` the
walker's traversal sequence. -/
def scan_folder (root : PyStr) (isDir : Bool) (entries : List Entry) :
    Except ScanErr ReportData :=
  if !isDir then .error .notADirectory
  else
    let st := entries.foldl scanStep initState
    .ok ⟨root, st.total_files, st.total_size, st.largest_file,
         st.largest_size, st.by_extension⟩

/-- One line of the file-types breakdown (folder_report.py line 93). -/
def extLine (ext : PyStr) (count size : Nat) : String :=
  "  " ++ padRight (String.mk ext) 20 ++ "  count: " ++
    padLeft (toString count) 6 ++ "  size: " ++ format_size size

/-- Embedding of `build_report` from folder_report.py (lines 63-95). -/
def build_report (data : ReportData) : String :=
  let lines : List String :=
    [strRepeat '=' 60,
     "FOLDER SCAN REPORT",
     strRepeat '=' 60,
     "Folder: " ++ String.mk data.folder,
     "",
     "SUMMARY",
     strRepeat '-' 40,
     "Total files:  " ++ toString data.total_files,
     "Total size:   " ++ format_size data.total_size,
     ""]
  let lines := lines ++
    (match data.largest_file with
     | some e =>
       ["Largest file: " ++ String.mk e.name ++ " (" ++
          format_size data.largest_size ++ ")",
        "  Path: " ++ String.mk e.path]
     | none => ["Largest file: (none)"])
  let lines := lines ++ ["", "FILE TYPES BREAKDOWN", strRepeat '-' 40]
  let lines := lines ++
    (sortByKey data.by_extension).map (fun b => extLine b.1 b.2.1 b.2.2)
  let lines := lines ++ [strRepeat '=' 60]
  String.intercalate "\n" lines

end FolderReport

namespace FilterByExtension

/-- Per-element extension normalization of filter_by_extension.py lines
40-41 and 43-44: prepend a dot when missing, then lower-case. -/
def normalizeExt (e : PyStr) : PyStr :=
  pyLower (if pyStartsWithDot e then e else '.' :: e)

/-- Python truthiness of an optional list (`if extensions:`): `None` and
the empty list are falsy. -/
def pyTruthyList (l : Option (List PyStr)) : Bool :=
  match l with
  | none => false
  | some xs => !xs.isEmpty

/-- The `if extensions: extensions = [...]` normalization block
(filter_by_extension.py lines 39-44), for one of the two filter lists. -/
def normalizeList (l : Option (List PyStr)) : Option (List PyStr) :=
  match l with
  | none => none
  | some xs => if !xs.isEmpty then some (xs.map normalizeExt) else some xs

/-- The six mutable locals of `scan_folder_filtered`
(filter_by_extension.py lines 46-51). -/
structure FState where
  total_files : Nat
  total_size : Nat
  largest_file : Option Entry
  largest_size : Nat
  by_extension : List (PyStr × Nat × Nat)
  skipped : Nat
deriving DecidableEq

/-- Initial values of the filtered-scan locals. -/
def initFState : FState := ⟨0, 0, none, 0, [], 0⟩

/-- Body of the walk loop of `scan_folder_filtered`
(filter_by_extension.py lines 53-79): non-files are skipped silently; a
file failing the include filter or matching the exclude filter only
increments `skipped`; a retained file is aggregated exactly as in
folder_report.py, with the same `size >= largest_size` comparison. -/
def filterStep (extensions exclude : Option (List PyStr))
    (st : FState) (entry : Entry) : FState :=
  if !entry.isFile then st
  else
    let ext := pyExt entry.suffix
    if pyTruthyList extensions && !((extensions.getD []).contains ext) then
      { st with skipped := st.skipped + 1 }
    else if pyTruthyList exclude && (exclude.getD []).contains ext then
      { st with skipped := st.skipped + 1 }
    else
      let size := match entry.sizeRes with | some s => s | none => 0
      { total_files := st.total_files + 1
        total_size := st.total_size + size
        largest_file := if st.largest_size ≤ size then some entry else st.largest_file
        largest_size := if st.largest_size ≤ size then size else st.largest_size
        by_extension := bump st.by_extension ext size
        skipped := st.skipped }

/-- The dict returned by `scan_folder_filtered`
(filter_by_extension.py lines 81-91). -/
structure FData where
  folder : PyStr
  total_files : Nat
  total_size : Nat
  largest_file : Option Entry
  largest_size : Nat
  by_extension : List (PyStr × Nat × Nat)
  skipped : Nat
  filter_include : Option (List PyStr)
  filter_exclude : Option (List PyStr)
deriving DecidableEq

/-- Embedding of `scan_folder_filtered` from filter_by_extension.py. -/
def scan_folder_filtered (root : PyStr) (isDir : Bool) (entries : List Entry)
    (extensions exclude : Option (List PyStr)) : Except ScanErr FData :=
  if !isDir then .error .notADirectory
  else
    let extensions := normalizeList extensions
    let exclude := normalizeList exclude
    let st := entries.foldl (filterStep extensions exclude) initFState
    .ok ⟨root, st.total_files, st.total_size, st.largest_file,
         st.largest_size, st.by_extension, st.skipped, extensions, exclude⟩

end FilterByExtension

namespace FolderScanner

/-- Embedding of `format_size` from folder_scanner.py (lines 18-27): an
integer byte count below 1024 is rendered with no decimals, and the unit
ladder stops at GB. -/
def format_size (size_bytes : Nat) : String :=
  if size_bytes < 1024 then toString size_bytes ++ " B"
  else if size_bytes < 1024 ^ 2 then fmt2 size_bytes 1024 "KB"
  else if size_bytes < 1024 ^ 3 then fmt2 size_bytes (1024 ^ 2) "MB"
  else fmt2 size_bytes (1024 ^ 3) "GB"

/-- The five mutable locals of folder_scanner.py `scan_folder`
(lines 36-40); `extensions` is the `Counter`, an association list of
counts in insertion order. -/
structure SState where
  total_files : Nat
  total_size : Nat
  largest_file_name : Option PyStr
  largest_file_size : Nat
  extensions : List (PyStr × Nat)
deriving DecidableEq

/-- Embedding of the `Counter` update `extension_counter[ext] += 1`. -/
def bumpCount (b : List (PyStr × Nat)) (ext : PyStr) : List (PyStr × Nat) :=
  match b with
  | [] => [(ext, 1)]
  | (e, c) :: rest =>
    if e = ext then (e, c + 1) :: rest else (e, c) :: bumpCount rest ext

/-- The `for entry in os.listdir(folder_path)` loop of folder_scanner.py
`scan_folder` (lines 42-57): `os.path.getsize` is called with no handler,
so a failing size read (`sizeRes = none`) propagates as an `OSError` and
aborts the walk; the largest-file comparison is the strict
`file_size > largest_file_size`. -/
def scanGo (st : SState) : List Entry → Except ScanErr SState
  | [] => .ok st
  | entry :: rest =>
    if !entry.isFile then scanGo st rest
    else
      match entry.sizeRes with
      | none => .error .osError
      | some file_size =>
        let ext := pyExt entry.suffix
        scanGo
          { total_files := st.total_files + 1
            total_size := st.total_size + file_size
            largest_file_name :=
              if st.largest_file_size < file_size then some entry.name
              else st.largest_file_name
            largest_file_size :=
              if st.largest_file_size < file_size then file_size
              else st.largest_file_size
            extensions := bumpCount st.extensions ext } rest

/-- Embedding of `scan_folder` from folder_scanner.py: on an invalid
directory it prints an error and calls `sys.exit(1)`, modelled as the
`sysExit 1` failure. -/
def scan_folder (isDir : Bool) (entries : List Entry) :
    Except ScanErr SState :=
  if !isDir then .error (.sysExit 1)
  else scanGo ⟨0, 0, none, 0, []⟩ entries

/-- Python truthiness of `data["largest_file_name"]` (an optional
string): `None` and the empty string are falsy. -/
def pyTruthyStr (s : Option PyStr) : Bool :=
  match s with
  | none => false
  | some xs => !xs.isEmpty

/-- Embedding of `build_report` from folder_scanner.py (lines 68-98).
The call `datetime.now().strftime(...)` on line 75 is an effect and is
embedded as the explicit input `now`; `os.path.abspath(folder_path)` is
embedded as the already-absolute input path. -/
def build_report (folder_path : PyStr) (data : SState) (now : String) :
    String :=
  let lines : List String :=
    [strRepeat '=' 50,
     "        FOLDER SCAN REPORT",
     strRepeat '=' 50,
     "Folder scanned : " ++ String.mk folder_path,
     "Scan date      : " ++ now,
     strRepeat '-' 50,
     "Total files    : " ++ toString data.total_files,
     "Total size     : " ++ format_size data.total_size]
  let lines := lines ++
    (if pyTruthyStr data.largest_file_name then
       ["Largest file   : " ++ String.mk ((data.largest_file_name).getD []) ++
          " (" ++ format_size data.largest_file_size ++ ")"]
     else ["Largest file   : (none â€” folder is empty)"])
  let lines := lines ++ [strRepeat '-' 50, "File types breakdown:"]
  let lines := lines ++
    (if !data.extensions.isEmpty then
       (sortByKey data.extensions).map
         (fun b => "  " ++ padRight (String.mk b.1) 20 ++ " : " ++
            toString b.2 ++ " file(s)")
     else ["  (no files found)"])
  let lines := lines ++ [strRepeat '=' 50]
  String.intercalate "\n" lines

end FolderScanner

/-! Helper lemmas and concrete fixtures used by the verification results. -/

/-- A `Char.ofNat` at a value below the surrogate range reads back its
code point. -/
theorem toNat_ofNat_valid {n : Nat} (h : n < 55296) : (Char.ofNat n).toNat = n := by
  rw [Char.ofNat, dif_pos (Or.inl h)]
  rfl

/-- ASCII lower-casing of a character is idempotent. -/
theorem pyLowerChar_idem (c : Char) : pyLowerChar (pyLowerChar c) = pyLowerChar c := by
  by_cases h : 65 ≤ c.toNat ∧ c.toNat ≤ 90
  · have h1 : pyLowerChar c = Char.ofNat (c.toNat + 32) := by
      unfold pyLowerChar
      rw [if_pos h]
    have ht : (Char.ofNat (c.toNat + 32)).toNat = c.toNat + 32 :=
      toNat_ofNat_valid (by omega)
    rw [h1]
    unfold pyLowerChar
    rw [if_neg (by rw [ht]; omega)]
  · have h1 : pyLowerChar c = c := by
      unfold pyLowerChar
      rw [if_neg h]
    rw [h1, h1]

/-- Lower-casing of a string is idempotent. -/
theorem pyLower_idem (s : PyStr) : pyLower (pyLower s) = pyLower s := by
  induction s with
  | nil => rfl
  | cons c cs ih =>
    simp only [pyLower, List.map_cons] at *
    rw [pyLowerChar_idem]
    exact congrArg _ ih

/-- The dot character is fixed by lower-casing. -/
theorem pyLowerChar_dot : pyLowerChar '.' = '.' := by decide

/-- Lower-casing commutes with prepending a dot. -/
theorem pyLower_cons_dot (s : PyStr) : pyLower ('.' :: s) = '.' :: pyLower s := by
  simp only [pyLower, List.map_cons, pyLowerChar_dot]

/-- A normalized extension starts with a dot. -/
theorem startsDot_normalizeExt (e : PyStr) :
    pyStartsWithDot (FilterByExtension.normalizeExt e) = true := by
  unfold FilterByExtension.normalizeExt
  by_cases h : pyStartsWithDot e = true
  · rw [if_pos h]
    match e, h with
    | c :: cs, h =>
      have hc : c = '.' := by simpa [pyStartsWithDot] using h
      subst hc
      rw [pyLower_cons_dot]
      simp [pyStartsWithDot]
  · rw [if_neg (by simp [h]), pyLower_cons_dot]
    simp [pyStartsWithDot]

/-- Fixture: a 5-byte `.txt` file visited first. -/
def fileA : Entry := ⟨"a.txt".data, "/d/a.txt".data, true, ".txt".data, some 5⟩

/-- Fixture: a second 5-byte `.txt` file visited after `fileA`. -/
def fileB : Entry := ⟨"b.txt".data, "/d/b.txt".data, true, ".txt".data, some 5⟩

/-- Fixture: a 7-byte file without an extension. -/
def fileC : Entry := ⟨"c".data, "/d/c".data, true, [], some 7⟩

/-- Fixture: a file whose size read fails. -/
def badFile : Entry := ⟨"x.bin".data, "/d/x.bin".data, true, ".bin".data, none⟩

/-- Fixture: a 0-byte `.txt` file. -/
def fileZ : Entry := ⟨"z.txt".data, "/d/z.txt".data, true, ".txt".data, some 0⟩

/-- C6: extension normalization lower-cases, prepends a missing dot, is
idempotent, and sends `.PY`, `py` and `.py` to `.py`. -/
theorem C6_normalization :
    (∀ e : PyStr,
       FilterByExtension.normalizeExt (FilterByExtension.normalizeExt e) =
         FilterByExtension.normalizeExt e) ∧
    (∀ e : PyStr,
       FilterByExtension.normalizeExt e =
         if pyStartsWithDot e then pyLower e else '.' :: pyLower e) ∧
    FilterByExtension.normalizeExt ".PY".data = ".py".data ∧
    FilterByExtension.normalizeExt "py".data = ".py".data ∧
    FilterByExtension.normalizeExt ".py".data = ".py".data := by
  refine ⟨?_, ?_, by decide, by decide, by decide⟩
  · intro e
    conv_lhs => rw [FilterByExtension.normalizeExt]
    rw [if_pos (startsDot_normalizeExt e)]
    unfold FilterByExtension.normalizeExt
    exact pyLower_idem _
  · intro e
    unfold FilterByExtension.normalizeExt
    by_cases h : pyStartsWithDot e = true
    · rw [if_pos h, if_pos h]
    · rw [if_neg (by simp [h]), if_neg (by simp [h]), pyLower_cons_dot]

/-- C2 counterexample: `format_size` in folder_scanner.py renders 1023
bytes as `1023 B` (no decimals), not `1023.00 B`, and renders values in
the TB range under the GB unit. -/
theorem C2_scanner_format_counterexample :
    FolderScanner.format_size 1023 = "1023 B" ∧
    (FolderScanner.format_size 1023 == "1023.00 B") = false ∧
    FolderScanner.format_size (1024 ^ 4) = "1024.00 GB" := by decide

/-- C2 amended: `format_size` in folder_report.py satisfies all the
claimed evaluations, and every byte count of at least 1024^5 is rendered
under the PB unit. -/
theorem C2_format_size_amended :
    FolderReport.format_size 0 = "0.00 B" ∧
    FolderReport.format_size 1023 = "1023.00 B" ∧
    FolderReport.format_size 1024 = "1.00 KB" ∧
    FolderReport.format_size 1536 = "1.50 KB" ∧
    FolderReport.format_size 1048576 = "1.00 MB" ∧
    ∀ n : Nat, 1024 ^ 5 ≤ n → FolderReport.format_size n = fmt2 n (1024 ^ 5) "PB" := by
  refine ⟨by decide, by decide, by decide, by decide, by decide, ?_⟩
  intro n h
  have h5 : 1125899906842624 ≤ n := by
    have : (1024 : Nat) ^ 5 = 1125899906842624 := by norm_num
    omega
  simp only [FolderReport.format_size, FolderReport.formatLoop]
  rw [if_neg (by omega), if_neg (by omega), if_neg (by omega),
      if_neg (by omega), if_neg (by omega)]
  norm_num

/-- C2 witness: the PB clause of the amended theorem at 1024^5. -/
theorem C2_format_size_witness :
    1024 ^ 5 ≤ 1024 ^ 5 ∧
    FolderReport.format_size (1024 ^ 5) = fmt2 (1024 ^ 5) (1024 ^ 5) "PB" :=
  ⟨Nat.le_refl _, C2_format_size_amended.2.2.2.2.2 (1024 ^ 5) (Nat.le_refl _)⟩

/-- Fixture scan state after `fileA`, for the report scanner. -/
def demoScanState : FolderReport.ScanState :=
  ⟨1, 5, some fileA, 5, [(".txt".data, 1, 5)]⟩

/-- Fixture scan state after `fileA`, for the filtered scanner. -/
def demoFState : FilterByExtension.FState :=
  ⟨1, 5, some fileA, 5, [(".txt".data, 1, 5)], 0⟩

/-- Fixture scan state after `fileA`, for folder_scanner.py. -/
def demoSState : FolderScanner.SState :=
  ⟨1, 5, some "a.txt".data, 5, [(".txt".data, 1)]⟩

/-- C1 counterexample: folder_scanner.py compares with strict `>`;
scanning two 5-byte files reports the EARLIER one (`a.txt`), not the
later one, as largest. -/
theorem C1_scanner_tie_counterexample :
    FolderScanner.scan_folder true [fileA, fileB] =
      Except.ok ⟨2, 10, some "a.txt".data, 5, [(".txt".data, 2)]⟩ ∧
    (("a.txt".data : PyStr) == "b.txt".data) = false := by decide

/-- C1 amended: the `>=` replacement rule holds in folder_report.py and
filter_by_extension.py (a retained file whose size equals the running
largest replaces it), while folder_scanner.py keeps the earlier file on
a size tie. -/
theorem C1_tie_break_amended :
    (∀ (st : FolderReport.ScanState) (e : Entry), e.isFile = true →
       e.sizeRes = some st.largest_size →
       (FolderReport.scanStep st e).largest_file = some e) ∧
    (∀ (inc exc : Option (List PyStr)) (st : FilterByExtension.FState) (e : Entry),
       e.isFile = true →
       (FilterByExtension.filterStep inc exc st e).total_files = st.total_files + 1 →
       e.sizeRes = some st.largest_size →
       (FilterByExtension.filterStep inc exc st e).largest_file = some e) ∧
    (∀ (st : FolderScanner.SState) (e : Entry), e.isFile = true →
       e.sizeRes = some st.largest_file_size →
       FolderScanner.scanGo st [e] =
         Except.ok
           { total_files := st.total_files + 1
             total_size := st.total_size + st.largest_file_size
             largest_file_name := st.largest_file_name
             largest_file_size := st.largest_file_size
             extensions := FolderScanner.bumpCount st.extensions (pyExt e.suffix) }) := by
  refine ⟨?_, ?_, ?_⟩
  · intro st e hf hs
    simp [FolderReport.scanStep, hf, hs]
  · intro inc exc st e hf htf hs
    simp [FilterByExtension.filterStep, hf, hs] at htf ⊢
    split at htf
    · simp at htf
    · rename_i h1
      rw [if_neg h1]
      split at htf
      · simp at htf
      · rename_i h2
        rw [if_neg h2]
  · intro st e hf hs
    simp [FolderScanner.scanGo, hf, hs, Nat.lt_irrefl]

/-- C1 witness: the three clauses of the amended theorem instantiated at
the fixture states and the equal-sized `fileB`. -/
theorem C1_tie_break_witness :
    fileB.isFile = true ∧
    fileB.sizeRes = some demoScanState.largest_size ∧
    (FolderReport.scanStep demoScanState fileB).largest_file = some fileB ∧
    (FilterByExtension.filterStep none none demoFState fileB).largest_file = some fileB ∧
    FolderScanner.scanGo demoSState [fileB] =
      Except.ok ⟨2, 10, some "a.txt".data, 5, [(".txt".data, 2)]⟩ := by
  refine ⟨by decide, by decide, ?_, ?_, ?_⟩
  · exact C1_tie_break_amended.1 demoScanState fileB (by decide) (by decide)
  · exact C1_tie_break_amended.2.1 none none demoFState fileB (by decide)
      (by decide) (by decide)
  · have h := C1_tie_break_amended.2.2 demoSState fileB (by decide) (by decide)
    rw [h]
    decide

/-- C3 counterexample: on an invalid root, folder_scanner.py exits the
process with status 1 instead of failing with `NotADirectoryError`. -/
theorem C3_scanner_exit_counterexample :
    FolderScanner.scan_folder false [] = Except.error (ScanErr.sysExit 1) ∧
    (ScanErr.sysExit 1 == ScanErr.notADirectory) = false := by decide

/-- The single-level walk of folder_scanner.py can fail only with an
`OSError`, never with the `sys.exit` of the root check. -/
theorem scanGo_no_sysExit (es : List Entry) :
    ∀ (st : FolderScanner.SState) (c : Nat),
      FolderScanner.scanGo st es ≠ Except.error (ScanErr.sysExit c) := by
  induction es with
  | nil =>
    intro st c h
    simp [FolderScanner.scanGo] at h
  | cons e rest ih =>
    intro st c
    by_cases hf : e.isFile = true
    · cases hsz : e.sizeRes with
      | none =>
        simp [FolderScanner.scanGo, hf, hsz]
      | some s =>
        simp only [FolderScanner.scanGo, hf, hsz, Bool.not_true]
        rw [if_neg (by simp)]
        exact ih _ c
    · have hf' : e.isFile = false := by
        cases h : e.isFile
        · rfl
        · exact absurd h hf
      simp only [FolderScanner.scanGo, hf', Bool.not_false, if_pos trivial]
      exact ih _ c

/-- C3 amended: an invalid root makes folder_report.py and
filter_by_extension.py fail immediately with `NotADirectoryError` and
makes folder_scanner.py exit with status 1, in every case before any
entry is examined and with no partial result; a valid root never takes
these branches (the two refined scans always return a result, and
folder_scanner.py never exits through the root check). -/
theorem C3_invalid_root_amended :
    (∀ (root : PyStr) (es : List Entry),
       FolderReport.scan_folder root false es = Except.error ScanErr.notADirectory) ∧
    (∀ (root : PyStr) (es : List Entry) (inc exc : Option (List PyStr)),
       FilterByExtension.scan_folder_filtered root false es inc exc =
         Except.error ScanErr.notADirectory) ∧
    (∀ es : List Entry,
       FolderScanner.scan_folder false es = Except.error (ScanErr.sysExit 1)) ∧
    (∀ (root : PyStr) (es : List Entry),
       ∃ d, FolderReport.scan_folder root true es = Except.ok d) ∧
    (∀ (root : PyStr) (es : List Entry) (inc exc : Option (List PyStr)),
       ∃ d, FilterByExtension.scan_folder_filtered root true es inc exc = Except.ok d) ∧
    (∀ es : List Entry,
       FolderScanner.scan_folder true es ≠ Except.error (ScanErr.sysExit 1)) := by
  refine ⟨fun root es => rfl, fun root es inc exc => rfl, fun es => rfl,
    fun root es => ⟨_, rfl⟩, fun root es inc exc => ⟨_, rfl⟩, ?_⟩
  intro es
  simp only [FolderScanner.scan_folder, Bool.not_true]
  rw [if_neg (by simp)]
  exact scanGo_no_sysExit es _ 1

/-- C3 witness: the amended theorem instantiated on an empty walk. -/
theorem C3_invalid_root_witness :
    FolderScanner.scan_folder true [] = Except.ok ⟨0, 0, none, 0, []⟩ ∧
    FolderScanner.scan_folder true [] ≠ Except.error (ScanErr.sysExit 1) :=
  ⟨by decide, C3_invalid_root_amended.2.2.2.2.2 []⟩

/-- C4 counterexample: folder_scanner.py has no handler around
`os.path.getsize`, so one failing size read aborts the whole scan with
the propagated `OSError` instead of counting the file with size 0. -/
theorem C4_scanner_oserror_counterexample :
    FolderScanner.scan_folder true [badFile] = Except.error ScanErr.osError ∧
    (FolderScanner.scan_folder true [badFile]).isOk = false := by decide

/-- C4 amended: in folder_report.py and filter_by_extension.py a failing
size read is recovered as size 0 — the file is still counted in
`total_files` and in its extension bucket, and the scan of a valid
directory always returns a result; folder_scanner.py instead propagates
the `OSError`. -/
theorem C4_size_read_amended :
    (∀ (st : FolderReport.ScanState) (e : Entry), e.isFile = true →
       e.sizeRes = none →
       (FolderReport.scanStep st e).total_files = st.total_files + 1 ∧
       (FolderReport.scanStep st e).total_size = st.total_size ∧
       (FolderReport.scanStep st e).by_extension =
         bump st.by_extension (pyExt e.suffix) 0) ∧
    (∀ (st : FilterByExtension.FState) (e : Entry), e.isFile = true →
       e.sizeRes = none →
       (FilterByExtension.filterStep none none st e).total_files = st.total_files + 1 ∧
       (FilterByExtension.filterStep none none st e).total_size = st.total_size ∧
       (FilterByExtension.filterStep none none st e).by_extension =
         bump st.by_extension (pyExt e.suffix) 0) ∧
    (∀ (root : PyStr) (es : List Entry),
       ∃ d, FolderReport.scan_folder root true es = Except.ok d) ∧
    (∀ (root : PyStr) (es : List Entry) (inc exc : Option (List PyStr)),
       ∃ d, FilterByExtension.scan_folder_filtered root true es inc exc = Except.ok d) := by
  refine ⟨?_, ?_, fun root es => ⟨_, rfl⟩, fun root es inc exc => ⟨_, rfl⟩⟩
  · intro st e hf hs
    simp [FolderReport.scanStep, hf, hs]
  · intro st e hf hs
    simp [FilterByExtension.filterStep, FilterByExtension.pyTruthyList, hf, hs]

/-- C4 witness: the folder_report.py clause of the amended theorem
instantiated at the fixture state and the unreadable `badFile`. -/
theorem C4_size_read_witness :
    badFile.isFile = true ∧ badFile.sizeRes = none ∧
    (FolderReport.scanStep demoScanState badFile).total_files =
      demoScanState.total_files + 1 ∧
    (FolderReport.scanStep demoScanState badFile).total_size =
      demoScanState.total_size ∧
    (FolderReport.scanStep demoScanState badFile).by_extension =
      bump demoScanState.by_extension (pyExt badFile.suffix) 0 := by
  have h := C4_size_read_amended.1 demoScanState badFile (by decide) (by decide)
  exact ⟨by decide, by decide, h.1, h.2.1, h.2.2⟩

/-- Whether the walk loop of `scan_folder_filtered` retains an entry:
it must be a regular file, pass the include filter, and pass the exclude
filter. -/
def retains (extensions exclude : Option (List PyStr)) (e : Entry) : Bool :=
  e.isFile &&
    !(FilterByExtension.pyTruthyList extensions &&
      !((extensions.getD []).contains (pyExt e.suffix))) &&
    !(FilterByExtension.pyTruthyList exclude &&
      (exclude.getD []).contains (pyExt e.suffix))

/-- One filtered step increments `total_files` exactly when the entry is
retained. -/
theorem filterStep_total_files (inc exc : Option (List PyStr))
    (st : FilterByExtension.FState) (e : Entry) :
    (FilterByExtension.filterStep inc exc st e).total_files =
      st.total_files + (if retains inc exc e then 1 else 0) := by
  cases hf : e.isFile <;>
    cases hI : FilterByExtension.pyTruthyList inc <;>
      cases hcI : (inc.getD []).contains (pyExt e.suffix) <;>
        cases hE : FilterByExtension.pyTruthyList exc <;>
          cases hcE : (exc.getD []).contains (pyExt e.suffix) <;>
            simp_all [FilterByExtension.filterStep, retains]

/-- The filtered fold counts retained entries into `total_files`. -/
theorem fold_total_files (inc exc : Option (List PyStr)) (es : List Entry) :
    ∀ st : FilterByExtension.FState,
      (es.foldl (FilterByExtension.filterStep inc exc) st).total_files =
        st.total_files + es.countP (retains inc exc) := by
  induction es with
  | nil =>
    intro st
    simp
  | cons e rest ih =>
    intro st
    simp only [List.foldl_cons, List.countP_cons]
    rw [ih, filterStep_total_files]
    by_cases h : retains inc exc e = true <;> simp [h] <;> omega

/-- Pointwise, a regular file is retained by `include=S` or by
`exclude=S` but never by both, so the two retained counts add up to the
unfiltered count. -/
theorem countP_retains_compl (S : List PyStr) (hS : S ≠ []) (es : List Entry) :
    es.countP (retains (some S) none) + es.countP (retains none (some S)) =
      es.countP (retains none none) := by
  have hSe : S.isEmpty = false := by
    cases S with
    | nil => exact absurd rfl hS
    | cons x xs => rfl
  induction es with
  | nil => rfl
  | cons e rest ih =>
    simp only [List.countP_cons]
    have h : (if retains (some S) none e then 1 else 0) +
        (if retains none (some S) e then 1 else 0) =
        (if retains none none e then 1 else 0) := by
      cases hf : e.isFile <;> cases hc : S.contains (pyExt e.suffix) <;>
        simp_all [retains, FilterByExtension.pyTruthyList]
    omega

/-- C5: on a fixed valid entry set, the retained counts of an
include-filtered scan and an exclude-filtered scan over the same
non-empty normalized extension set add up to the unfiltered count. -/
theorem C5_filters_complementary :
    ∀ (root : PyStr) (entries : List Entry) (S : List PyStr)
      (a b c : FilterByExtension.FData),
      S ≠ [] →
      (∀ s ∈ S, FilterByExtension.normalizeExt s = s) →
      FilterByExtension.scan_folder_filtered root true entries (some S) none =
        Except.ok a →
      FilterByExtension.scan_folder_filtered root true entries none (some S) =
        Except.ok b →
      FilterByExtension.scan_folder_filtered root true entries none none =
        Except.ok c →
      a.total_files + b.total_files = c.total_files := by
  intro root entries S a b c hS hnorm ha hb hc
  have hSe : S.isEmpty = false := by
    cases S with
    | nil => exact absurd rfl hS
    | cons x xs => rfl
  have hSm : S.map FilterByExtension.normalizeExt ≠ [] := by
    cases S with
    | nil => exact absurd rfl hS
    | cons x xs => simp
  simp only [FilterByExtension.scan_folder_filtered,
    FilterByExtension.normalizeList, hSe, Bool.not_false, Bool.not_true,
    Bool.false_eq_true, if_false, if_true, Except.ok.injEq] at ha hb hc
  subst ha hb hc
  have e1 := fold_total_files (some (S.map FilterByExtension.normalizeExt))
    none entries FilterByExtension.initFState
  have e2 := fold_total_files none (some (S.map FilterByExtension.normalizeExt))
    entries FilterByExtension.initFState
  have e3 := fold_total_files none none entries FilterByExtension.initFState
  have e4 := countP_retains_compl (S.map FilterByExtension.normalizeExt)
    hSm entries
  have h0 : FilterByExtension.initFState.total_files = 0 := rfl
  rw [h0] at e1 e2 e3
  simp only [e1, e2, e3]
  omega

/-- Fixture walk used by the complementarity witness. -/
def demoEntries : List Entry := [fileA, fileC]

/-- Result of the include-filtered fixture scan. -/
def demoInclude : FilterByExtension.FData :=
  ⟨"/d".data, 1, 5, some fileA, 5, [(".txt".data, 1, 5)], 1,
   some [".txt".data], none⟩

/-- Result of the exclude-filtered fixture scan. -/
def demoExclude : FilterByExtension.FData :=
  ⟨"/d".data, 1, 7, some fileC, 7, [(noExtSentinel, 1, 7)], 1,
   none, some [".txt".data]⟩

/-- Result of the unfiltered fixture scan. -/
def demoUnfiltered : FilterByExtension.FData :=
  ⟨"/d".data, 2, 12, some fileC, 7,
   [(".txt".data, 1, 5), (noExtSentinel, 1, 7)], 0, none, none⟩

/-- C5 witness: the complementarity theorem applied to the two-file
fixture walk with the set containing `.txt`. -/
theorem C5_filters_witness :
    FilterByExtension.scan_folder_filtered "/d".data true demoEntries
      (some [".txt".data]) none = Except.ok demoInclude ∧
    demoInclude.total_files + demoExclude.total_files =
      demoUnfiltered.total_files := by
  refine ⟨by decide, ?_⟩
  exact C5_filters_complementary "/d".data demoEntries [".txt".data]
    demoInclude demoExclude demoUnfiltered (by decide) (by decide)
    (by decide) (by decide) (by decide)

/-- After an update with the `>=` rule the running largest is never the
none sentinel, provided a none sentinel implies a zero running size. -/
theorem largest_after_file (ls sz : Nat) (lf : Option Entry) (e : Entry)
    (h2 : lf = none → ls = 0) :
    (if ls ≤ sz then some e else lf) ≠ none := by
  by_cases hle : ls ≤ sz
  · simp [hle]
  · rw [if_neg hle]
    intro hn
    exact hle (by rw [h2 hn]; exact Nat.zero_le _)

/-- One report-scanner step preserves the largest-file invariant. -/
theorem scanStep_largest_inv (st : FolderReport.ScanState) (e : Entry)
    (h1 : st.largest_file = none ↔ st.total_files = 0)
    (h2 : st.largest_file = none → st.largest_size = 0) :
    ((FolderReport.scanStep st e).largest_file = none ↔
      (FolderReport.scanStep st e).total_files = 0) ∧
    ((FolderReport.scanStep st e).largest_file = none →
      (FolderReport.scanStep st e).largest_size = 0) := by
  by_cases hf : e.isFile = true
  · have hstep : FolderReport.scanStep st e =
        { total_files := st.total_files + 1
          total_size := st.total_size +
            (match e.sizeRes with | some s => s | none => 0)
          largest_file :=
            if st.largest_size ≤ (match e.sizeRes with | some s => s | none => 0)
            then some e else st.largest_file
          largest_size :=
            if st.largest_size ≤ (match e.sizeRes with | some s => s | none => 0)
            then (match e.sizeRes with | some s => s | none => 0)
            else st.largest_size
          by_extension := bump st.by_extension (pyExt e.suffix)
            (match e.sizeRes with | some s => s | none => 0) } := by
      simp [FolderReport.scanStep, hf]
    have hne := largest_after_file st.largest_size
      (match e.sizeRes with | some s => s | none => 0) st.largest_file e h2
    rw [hstep]
    refine ⟨⟨fun hn => absurd hn hne, fun h0 => absurd h0 (Nat.succ_ne_zero _)⟩,
      fun hn => absurd hn hne⟩
  · have hf' : e.isFile = false := by
      revert hf
      cases e.isFile <;> simp
    have hstep : FolderReport.scanStep st e = st := by
      simp [FolderReport.scanStep, hf']
    rw [hstep]
    exact ⟨h1, h2⟩

/-- The report-scanner fold preserves the largest-file invariant. -/
theorem scan_fold_largest (es : List Entry) :
    ∀ st : FolderReport.ScanState,
      (st.largest_file = none ↔ st.total_files = 0) →
      (st.largest_file = none → st.largest_size = 0) →
      (((es.foldl FolderReport.scanStep st).largest_file = none ↔
        (es.foldl FolderReport.scanStep st).total_files = 0) ∧
       ((es.foldl FolderReport.scanStep st).largest_file = none →
        (es.foldl FolderReport.scanStep st).largest_size = 0)) := by
  induction es with
  | nil =>
    intro st h1 h2
    exact ⟨h1, h2⟩
  | cons e rest ih =>
    intro st h1 h2
    have h := scanStep_largest_inv st e h1 h2
    exact ih _ h.1 h.2

/-- One filtered step preserves the largest-file invariant. -/
theorem filterStep_largest_inv (inc exc : Option (List PyStr))
    (st : FilterByExtension.FState) (e : Entry)
    (h1 : st.largest_file = none ↔ st.total_files = 0)
    (h2 : st.largest_file = none → st.largest_size = 0) :
    (((FilterByExtension.filterStep inc exc st e).largest_file = none ↔
      (FilterByExtension.filterStep inc exc st e).total_files = 0) ∧
     ((FilterByExtension.filterStep inc exc st e).largest_file = none →
      (FilterByExtension.filterStep inc exc st e).largest_size = 0)) := by
  by_cases hf : e.isFile = true
  · by_cases hg1 : (FilterByExtension.pyTruthyList inc &&
        !((inc.getD []).contains (pyExt e.suffix))) = true
    · have hstep : FilterByExtension.filterStep inc exc st e =
          { st with skipped := st.skipped + 1 } := by
        unfold FilterByExtension.filterStep
        rw [hf, Bool.not_true, if_neg (show ¬(false = true) by decide),
          if_pos hg1]
      rw [hstep]
      exact ⟨h1, h2⟩
    · by_cases hg2 : (FilterByExtension.pyTruthyList exc &&
          (exc.getD []).contains (pyExt e.suffix)) = true
      · have hstep : FilterByExtension.filterStep inc exc st e =
            { st with skipped := st.skipped + 1 } := by
          unfold FilterByExtension.filterStep
          rw [hf, Bool.not_true, if_neg (show ¬(false = true) by decide),
            if_neg hg1, if_pos hg2]
        rw [hstep]
        exact ⟨h1, h2⟩
      · have hstep : FilterByExtension.filterStep inc exc st e =
            { total_files := st.total_files + 1
              total_size := st.total_size +
                (match e.sizeRes with | some s => s | none => 0)
              largest_file :=
                if st.largest_size ≤
                    (match e.sizeRes with | some s => s | none => 0)
                then some e else st.largest_file
              largest_size :=
                if st.largest_size ≤
                    (match e.sizeRes with | some s => s | none => 0)
                then (match e.sizeRes with | some s => s | none => 0)
                else st.largest_size
              by_extension := bump st.by_extension (pyExt e.suffix)
                (match e.sizeRes with | some s => s | none => 0)
              skipped := st.skipped } := by
          unfold FilterByExtension.filterStep
          rw [hf, Bool.not_true, if_neg (show ¬(false = true) by decide),
            if_neg hg1, if_neg hg2]
        have hne := largest_after_file st.largest_size
          (match e.sizeRes with | some s => s | none => 0) st.largest_file e h2
        rw [hstep]
        refine ⟨⟨fun hn => absurd hn hne,
          fun h0 => absurd h0 (Nat.succ_ne_zero _)⟩, fun hn => absurd hn hne⟩
  · have hf' : e.isFile = false := by
      revert hf
      cases e.isFile <;> simp
    have hstep : FilterByExtension.filterStep inc exc st e = st := by
      simp [FilterByExtension.filterStep, hf']
    rw [hstep]
    exact ⟨h1, h2⟩

/-- The filtered fold preserves the largest-file invariant. -/
theorem filter_fold_largest (inc exc : Option (List PyStr)) (es : List Entry) :
    ∀ st : FilterByExtension.FState,
      (st.largest_file = none ↔ st.total_files = 0) →
      (st.largest_file = none → st.largest_size = 0) →
      (((es.foldl (FilterByExtension.filterStep inc exc) st).largest_file = none ↔
        (es.foldl (FilterByExtension.filterStep inc exc) st).total_files = 0) ∧
       ((es.foldl (FilterByExtension.filterStep inc exc) st).largest_file = none →
        (es.foldl (FilterByExtension.filterStep inc exc) st).largest_size = 0)) := by
  induction es with
  | nil =>
    intro st h1 h2
    exact ⟨h1, h2⟩
  | cons e rest ih =>
    intro st h1 h2
    have h := filterStep_largest_inv inc exc st e h1 h2
    exact ih _ h.1 h.2

/-- C8: in both aggregate-producing scans, `largest_file` is the none
sentinel exactly when no file was retained — any retained file, even of
size 0, sets it because the comparison is `>=` against an initial 0. -/
theorem C8_largest_iff_empty :
    (∀ (root : PyStr) (es : List Entry) (d : FolderReport.ReportData),
       FolderReport.scan_folder root true es = Except.ok d →
       (d.largest_file = none ↔ d.total_files = 0)) ∧
    (∀ (root : PyStr) (es : List Entry) (inc exc : Option (List PyStr))
       (d : FilterByExtension.FData),
       FilterByExtension.scan_folder_filtered root true es inc exc = Except.ok d →
       (d.largest_file = none ↔ d.total_files = 0)) := by
  constructor
  · intro root es d hd
    simp only [FolderReport.scan_folder, Bool.not_true, Bool.false_eq_true,
      if_false, Except.ok.injEq] at hd
    subst hd
    exact (scan_fold_largest es FolderReport.initState
      ⟨fun _ => rfl, fun _ => rfl⟩ (fun _ => rfl)).1
  · intro root es inc exc d hd
    simp only [FilterByExtension.scan_folder_filtered, Bool.not_true,
      Bool.false_eq_true, if_false, Except.ok.injEq] at hd
    subst hd
    exact (filter_fold_largest (FilterByExtension.normalizeList inc)
      (FilterByExtension.normalizeList exc) es FilterByExtension.initFState
      ⟨fun _ => rfl, fun _ => rfl⟩ (fun _ => rfl)).1

/-- Result of scanning a single zero-byte file. -/
def demoZero : FolderReport.ReportData :=
  ⟨"/d".data, 1, 0, some fileZ, 0, [(".txt".data, 1, 0)]⟩

/-- C8 witness: the invariant at a scan retaining one zero-byte file. -/
theorem C8_largest_witness :
    FolderReport.scan_folder "/d".data true [fileZ] = Except.ok demoZero ∧
    (demoZero.largest_file = none ↔ demoZero.total_files = 0) :=
  ⟨by decide, C8_largest_iff_empty.1 "/d".data [fileZ] demoZero (by decide)⟩

/-- A bucket update adds exactly one to the total bucket count. -/
theorem bump_sumCount (b : List (PyStr × Nat × Nat)) (ext : PyStr) (size : Nat) :
    sumCount (bump b ext size) = sumCount b + 1 := by
  induction b with
  | nil => rfl
  | cons p rest ih =>
    obtain ⟨e, c, s⟩ := p
    by_cases h : e = ext
    · simp [bump, h, sumCount]
      omega
    · simp only [bump, h, if_false, sumCount, List.map_cons, List.sum_cons] at ih ⊢
      omega

/-- A bucket update adds exactly the entry size to the total bucket size. -/
theorem bump_sumSize (b : List (PyStr × Nat × Nat)) (ext : PyStr) (size : Nat) :
    sumSize (bump b ext size) = sumSize b + size := by
  induction b with
  | nil => simp [bump, sumSize]
  | cons p rest ih =>
    obtain ⟨e, c, s⟩ := p
    by_cases h : e = ext
    · simp [bump, h, sumSize]
      omega
    · simp only [bump, h, if_false, sumSize, List.map_cons, List.sum_cons] at ih ⊢
      omega

/-- Exhaustive description of one filtered step: a non-file leaves the
state unchanged, a filtered-out file only increments `skipped`, and a
retained file performs the full aggregate update. -/
theorem filterStep_cases (inc exc : Option (List PyStr))
    (st : FilterByExtension.FState) (e : Entry) :
    (e.isFile = false ∧ FilterByExtension.filterStep inc exc st e = st) ∨
    (e.isFile = true ∧ FilterByExtension.filterStep inc exc st e =
      { st with skipped := st.skipped + 1 }) ∨
    (e.isFile = true ∧ FilterByExtension.filterStep inc exc st e =
      { total_files := st.total_files + 1
        total_size := st.total_size +
          (match e.sizeRes with | some s => s | none => 0)
        largest_file :=
          if st.largest_size ≤ (match e.sizeRes with | some s => s | none => 0)
          then some e else st.largest_file
        largest_size :=
          if st.largest_size ≤ (match e.sizeRes with | some s => s | none => 0)
          then (match e.sizeRes with | some s => s | none => 0)
          else st.largest_size
        by_extension := bump st.by_extension (pyExt e.suffix)
          (match e.sizeRes with | some s => s | none => 0)
        skipped := st.skipped }) := by
  by_cases hf : e.isFile = true
  · by_cases hg1 : (FilterByExtension.pyTruthyList inc &&
        !((inc.getD []).contains (pyExt e.suffix))) = true
    · refine Or.inr (Or.inl ⟨hf, ?_⟩)
      unfold FilterByExtension.filterStep
      rw [hf, Bool.not_true, if_neg (show ¬(false = true) by decide), if_pos hg1]
    · by_cases hg2 : (FilterByExtension.pyTruthyList exc &&
          (exc.getD []).contains (pyExt e.suffix)) = true
      · refine Or.inr (Or.inl ⟨hf, ?_⟩)
        unfold FilterByExtension.filterStep
        rw [hf, Bool.not_true, if_neg (show ¬(false = true) by decide),
          if_neg hg1, if_pos hg2]
      · refine Or.inr (Or.inr ⟨hf, ?_⟩)
        unfold FilterByExtension.filterStep
        rw [hf, Bool.not_true, if_neg (show ¬(false = true) by decide),
          if_neg hg1, if_neg hg2]
  · have hf' : e.isFile = false := by
      revert hf
      cases e.isFile <;> simp
    refine Or.inl ⟨hf', ?_⟩
    simp [FilterByExtension.filterStep, hf']

/-- One report-scanner step preserves the bucket-coherence invariant. -/
theorem scanStep_sums_inv (st : FolderReport.ScanState) (e : Entry)
    (h1 : sumCount st.by_extension = st.total_files)
    (h2 : sumSize st.by_extension = st.total_size) :
    sumCount (FolderReport.scanStep st e).by_extension =
      (FolderReport.scanStep st e).total_files ∧
    sumSize (FolderReport.scanStep st e).by_extension =
      (FolderReport.scanStep st e).total_size := by
  by_cases hf : e.isFile = true
  · simp [FolderReport.scanStep, hf, bump_sumCount, bump_sumSize, h1, h2]
  · have hf' : e.isFile = false := by
      revert hf
      cases e.isFile <;> simp
    simp [FolderReport.scanStep, hf']
    exact ⟨h1, h2⟩

/-- The report-scanner fold preserves the bucket-coherence invariant. -/
theorem scan_fold_sums (es : List Entry) :
    ∀ st : FolderReport.ScanState,
      sumCount st.by_extension = st.total_files →
      sumSize st.by_extension = st.total_size →
      sumCount (es.foldl FolderReport.scanStep st).by_extension =
        (es.foldl FolderReport.scanStep st).total_files ∧
      sumSize (es.foldl FolderReport.scanStep st).by_extension =
        (es.foldl FolderReport.scanStep st).total_size := by
  induction es with
  | nil =>
    intro st h1 h2
    exact ⟨h1, h2⟩
  | cons e rest ih =>
    intro st h1 h2
    have h := scanStep_sums_inv st e h1 h2
    exact ih _ h.1 h.2

/-- One filtered step preserves the bucket-coherence invariant. -/
theorem filterStep_sums_inv (inc exc : Option (List PyStr))
    (st : FilterByExtension.FState) (e : Entry)
    (h1 : sumCount st.by_extension = st.total_files)
    (h2 : sumSize st.by_extension = st.total_size) :
    sumCount (FilterByExtension.filterStep inc exc st e).by_extension =
      (FilterByExtension.filterStep inc exc st e).total_files ∧
    sumSize (FilterByExtension.filterStep inc exc st e).by_extension =
      (FilterByExtension.filterStep inc exc st e).total_size := by
  rcases filterStep_cases inc exc st e with ⟨_, hst⟩ | ⟨_, hst⟩ | ⟨_, hst⟩ <;>
    rw [hst]
  · exact ⟨h1, h2⟩
  · exact ⟨h1, h2⟩
  · exact ⟨by rw [bump_sumCount, h1], by rw [bump_sumSize, h2]⟩

/-- The filtered fold preserves the bucket-coherence invariant. -/
theorem filter_fold_sums (inc exc : Option (List PyStr)) (es : List Entry) :
    ∀ st : FilterByExtension.FState,
      sumCount st.by_extension = st.total_files →
      sumSize st.by_extension = st.total_size →
      sumCount (es.foldl (FilterByExtension.filterStep inc exc) st).by_extension =
        (es.foldl (FilterByExtension.filterStep inc exc) st).total_files ∧
      sumSize (es.foldl (FilterByExtension.filterStep inc exc) st).by_extension =
        (es.foldl (FilterByExtension.filterStep inc exc) st).total_size := by
  induction es with
  | nil =>
    intro st h1 h2
    exact ⟨h1, h2⟩
  | cons e rest ih =>
    intro st h1 h2
    have h := filterStep_sums_inv inc exc st e h1 h2
    exact ih _ h.1 h.2

/-- C9: in both scans, after any prefix of the walk and in any returned
aggregate, the bucket counts sum to `total_files` and the bucket sizes
sum to `total_size`. -/
theorem C9_bucket_coherence :
    (∀ (es : List Entry) (k : Nat),
       sumCount ((es.take k).foldl FolderReport.scanStep
           FolderReport.initState).by_extension =
         ((es.take k).foldl FolderReport.scanStep
           FolderReport.initState).total_files ∧
       sumSize ((es.take k).foldl FolderReport.scanStep
           FolderReport.initState).by_extension =
         ((es.take k).foldl FolderReport.scanStep
           FolderReport.initState).total_size) ∧
    (∀ (inc exc : Option (List PyStr)) (es : List Entry) (k : Nat),
       sumCount ((es.take k).foldl (FilterByExtension.filterStep inc exc)
           FilterByExtension.initFState).by_extension =
         ((es.take k).foldl (FilterByExtension.filterStep inc exc)
           FilterByExtension.initFState).total_files ∧
       sumSize ((es.take k).foldl (FilterByExtension.filterStep inc exc)
           FilterByExtension.initFState).by_extension =
         ((es.take k).foldl (FilterByExtension.filterStep inc exc)
           FilterByExtension.initFState).total_size) ∧
    (∀ (root : PyStr) (es : List Entry) (d : FolderReport.ReportData),
       FolderReport.scan_folder root true es = Except.ok d →
       sumCount d.by_extension = d.total_files ∧
       sumSize d.by_extension = d.total_size) ∧
    (∀ (root : PyStr) (es : List Entry) (inc exc : Option (List PyStr))
       (d : FilterByExtension.FData),
       FilterByExtension.scan_folder_filtered root true es inc exc = Except.ok d →
       sumCount d.by_extension = d.total_files ∧
       sumSize d.by_extension = d.total_size) := by
  refine ⟨?_, ?_, ?_, ?_⟩
  · intro es k
    exact scan_fold_sums (es.take k) FolderReport.initState rfl rfl
  · intro inc exc es k
    exact filter_fold_sums inc exc (es.take k) FilterByExtension.initFState rfl rfl
  · intro root es d hd
    simp only [FolderReport.scan_folder, Bool.not_true, Bool.false_eq_true,
      if_false, Except.ok.injEq] at hd
    subst hd
    exact scan_fold_sums es FolderReport.initState rfl rfl
  · intro root es inc exc d hd
    simp only [FilterByExtension.scan_folder_filtered, Bool.not_true,
      Bool.false_eq_true, if_false, Except.ok.injEq] at hd
    subst hd
    exact filter_fold_sums (FilterByExtension.normalizeList inc)
      (FilterByExtension.normalizeList exc) es FilterByExtension.initFState rfl rfl

/-- Result of the unfiltered fixture scan through folder_report.py. -/
def demoReport : FolderReport.ReportData :=
  ⟨"/d".data, 2, 12, some fileC, 7,
   [(".txt".data, 1, 5), (noExtSentinel, 1, 7)]⟩

/-- C9 witness: bucket coherence on the concrete two-file fixture scan. -/
theorem C9_bucket_witness :
    FolderReport.scan_folder "/d".data true demoEntries = Except.ok demoReport ∧
    sumCount demoReport.by_extension = demoReport.total_files ∧
    sumSize demoReport.by_extension = demoReport.total_size :=
  ⟨by decide, C9_bucket_coherence.2.2.1 "/d".data demoEntries demoReport (by decide)⟩

/-- One filtered step adds one to `total_files + skipped` exactly when
the entry is a regular file. -/
theorem filterStep_count (inc exc : Option (List PyStr))
    (st : FilterByExtension.FState) (e : Entry) :
    (FilterByExtension.filterStep inc exc st e).total_files +
      (FilterByExtension.filterStep inc exc st e).skipped =
      st.total_files + st.skipped + (if e.isFile then 1 else 0) := by
  rcases filterStep_cases inc exc st e with ⟨hf, hst⟩ | ⟨hf, hst⟩ | ⟨hf, hst⟩ <;>
    rw [hst, hf] <;> simp <;> omega

/-- The filtered fold counts every regular file exactly once into
`total_files + skipped`. -/
theorem filter_fold_count (inc exc : Option (List PyStr)) (es : List Entry) :
    ∀ st : FilterByExtension.FState,
      (es.foldl (FilterByExtension.filterStep inc exc) st).total_files +
        (es.foldl (FilterByExtension.filterStep inc exc) st).skipped =
        st.total_files + st.skipped + es.countP (fun e => e.isFile) := by
  induction es with
  | nil =>
    intro st
    simp
  | cons e rest ih =>
    intro st
    simp only [List.foldl_cons, List.countP_cons]
    rw [ih, filterStep_count]
    by_cases h : e.isFile = true <;> simp [h] <;> omega

/-- C10: after any prefix of a filtered walk, and in any returned
filtered aggregate, `total_files + skipped` equals the number of regular
files walked; and a filtered-out regular file changes nothing but the
`skipped` counter. -/
theorem C10_skipped_frame :
    (∀ (inc exc : Option (List PyStr)) (es : List Entry) (k : Nat),
       ((es.take k).foldl (FilterByExtension.filterStep inc exc)
           FilterByExtension.initFState).total_files +
         ((es.take k).foldl (FilterByExtension.filterStep inc exc)
           FilterByExtension.initFState).skipped =
         (es.take k).countP (fun e => e.isFile)) ∧
    (∀ (root : PyStr) (es : List Entry) (inc exc : Option (List PyStr))
       (d : FilterByExtension.FData),
       FilterByExtension.scan_folder_filtered root true es inc exc = Except.ok d →
       d.total_files + d.skipped = es.countP (fun e => e.isFile)) ∧
    (∀ (inc exc : Option (List PyStr)) (st : FilterByExtension.FState)
       (e : Entry),
       e.isFile = true →
       ((FilterByExtension.pyTruthyList inc &&
           !((inc.getD []).contains (pyExt e.suffix))) = true ∨
        (FilterByExtension.pyTruthyList exc &&
           (exc.getD []).contains (pyExt e.suffix)) = true) →
       FilterByExtension.filterStep inc exc st e =
         { st with skipped := st.skipped + 1 }) := by
  refine ⟨?_, ?_, ?_⟩
  · intro inc exc es k
    have h := filter_fold_count inc exc (es.take k) FilterByExtension.initFState
    have h0 : FilterByExtension.initFState.total_files = 0 := rfl
    have h1 : FilterByExtension.initFState.skipped = 0 := rfl
    rw [h0, h1] at h
    omega
  · intro root es inc exc d hd
    simp only [FilterByExtension.scan_folder_filtered, Bool.not_true,
      Bool.false_eq_true, if_false, Except.ok.injEq] at hd
    subst hd
    have h := filter_fold_count (FilterByExtension.normalizeList inc)
      (FilterByExtension.normalizeList exc) es FilterByExtension.initFState
    have h0 : FilterByExtension.initFState.total_files = 0 := rfl
    have h1 : FilterByExtension.initFState.skipped = 0 := rfl
    rw [h0, h1] at h
    have h2 : 0 + 0 + es.countP (fun e => e.isFile) =
        es.countP (fun e => e.isFile) := by omega
    exact h.trans h2
  · intro inc exc st e hf hskip
    rcases hskip with hg1 | hg2
    · unfold FilterByExtension.filterStep
      rw [hf, Bool.not_true, if_neg (show ¬(false = true) by decide), if_pos hg1]
    · by_cases hg1 : (FilterByExtension.pyTruthyList inc &&
          !((inc.getD []).contains (pyExt e.suffix))) = true
      · unfold FilterByExtension.filterStep
        rw [hf, Bool.not_true, if_neg (show ¬(false = true) by decide),
          if_pos hg1]
      · unfold FilterByExtension.filterStep
        rw [hf, Bool.not_true, if_neg (show ¬(false = true) by decide),
          if_neg hg1, if_pos hg2]

/-- C10 witness: the frame clause on a concrete filtered-out file and
the counting clause on the fixture scan. -/
theorem C10_skipped_witness :
    FilterByExtension.filterStep (some [".py".data]) none
        FilterByExtension.initFState fileA =
      { FilterByExtension.initFState with
          skipped := FilterByExtension.initFState.skipped + 1 } ∧
    demoUnfiltered.total_files + demoUnfiltered.skipped =
      demoEntries.countP (fun e => e.isFile) := by
  constructor
  · exact C10_skipped_frame.2.2 (some [".py".data]) none
      FilterByExtension.initFState fileA (by decide) (Or.inl (by decide))
  · exact C10_skipped_frame.2.1 "/d".data demoEntries none none
      demoUnfiltered (by decide)

/-- The all-zero empty aggregate. -/
def emptyReportData : FolderReport.ReportData :=
  ⟨"/tmp/empty".data, 0, 0, none, 0, []⟩

set_option maxRecDepth 8192 in
/-- C7 counterexample: `build_report` in folder_scanner.py interpolates
`datetime.now()`, so two renderings of the same aggregate at different
clock readings produce different bytes. -/
theorem C7_scanner_clock_counterexample :
    (FolderScanner.build_report "/d".data demoSState "2024-01-01 00:00:00" ==
      FolderScanner.build_report "/d".data demoSState "2024-01-01 00:00:01") =
      false := by decide

set_option maxRecDepth 8192 in
/-- C7 amended: `build_report` in folder_report.py is a total function of
the aggregate alone — equal aggregates render to byte-identical strings,
and the all-zero empty aggregate renders successfully, with the explicit
none line. -/
theorem C7_render_amended :
    (∀ d₁ d₂ : FolderReport.ReportData, d₁ = d₂ →
       FolderReport.build_report d₁ = FolderReport.build_report d₂) ∧
    FolderReport.build_report emptyReportData =
      strRepeat '=' 60 ++ "\nFOLDER SCAN REPORT\n" ++ strRepeat '=' 60 ++
        "\nFolder: /tmp/empty\n\nSUMMARY\n" ++ strRepeat '-' 40 ++
        "\nTotal files:  0\nTotal size:   0.00 B\n\nLargest file: (none)" ++
        "\n\nFILE TYPES BREAKDOWN\n" ++ strRepeat '-' 40 ++ "\n" ++
        strRepeat '=' 60 := by
  refine ⟨fun d₁ d₂ h => by rw [h], by decide⟩

/-- C7 witness: byte-identical re-rendering of the empty aggregate. -/
theorem C7_render_witness :
    emptyReportData = emptyReportData ∧
    FolderReport.build_report emptyReportData =
      FolderReport.build_report emptyReportData :=
  ⟨rfl, C7_render_amended.1 emptyReportData emptyReportData rfl⟩
